import Mathlib

/-!
Verification of the filtering and metrics-derivation pipeline of the
hotel-dashboard application (`src/app.py`).

The pipeline is shallowly embedded: pandas DataFrames become Lists of
records, pandas boolean-mask filtering becomes `List.filter` (pandas
boolean indexing returns a new frame, which the script rebinds to the
same variable name), Python exceptions become `Except`, and the pandas
`NaN`/`NaT` missing-value markers become `Option.none`.  Timestamps are
modelled as integers (an instant on a linear time axis); monetary
amounts and balances as rationals.
-/

/-- One phone-number cell as the sheet delivers it: the source may
represent a phone either as text or as a number, which is why lines
134-135 of `app.py` coerce the phone columns with `astype(str)`. -/
inductive PyVal where
  | str (s : String)
  | num (n : Int)
  deriving DecidableEq, Repr

/-- Python `str` / pandas `astype(str)` on one cell: a string cell is
unchanged, a numeric cell becomes its decimal rendering — a
value-changing coercion. -/
def pyStr : PyVal → PyVal
  | .str s => .str s
  | .num n => .str (toString n)

/-- A normalized transaction record (one row of the "Transactions"
sheet after the `Timestamp` column has been parsed).  `timestamp = none`
models pandas `NaT`. -/
structure Txn where
  timestamp : Option Int
  userName : String
  phoneNumber : PyVal
  type : String
  amount : ℚ
  deriving DecidableEq, Repr

/-- A balance record (one row of the "CurrentBalances" sheet).
`lastUpdated = none` models a `NaT` produced by the coercing parse of
the "Last Updated" column. -/
structure Balance where
  username : String
  phone : PyVal
  currentBalance : ℚ
  lastUpdated : Option Int
  deriving DecidableEq, Repr

/-- The user-selected filter criteria.  `dateRange = none` models the
date-input widget holding fewer than two dates (the code applies the
date filter only when `len(date_range) == 2`). -/
structure Criteria where
  selectedUsers : List String
  selectedTypes : List String
  dateRange : Option (Int × Int)
  deriving DecidableEq, Repr

/-- Lines 120-122 of `app.py`:
`if selected_users:` — when the selection is non-empty, keep the
transaction rows whose `userName` is in the selection and the balance
rows whose `Username` is in the selection; when it is empty, the step
is a pass-through for both tables. -/
def userFilter (sel : List String) (txns : List Txn) (bals : List Balance) :
    List Txn × List Balance :=
  if sel = [] then (txns, bals)
  else (txns.filter (fun t => decide (t.userName ∈ sel)),
        bals.filter (fun b => decide (b.username ∈ sel)))

/-- Line 124 of `app.py`:
`df_transactions = df_transactions[df_transactions["type"].isin(selected_type)]`
— unconditional membership test against the selected types; only the
transactions table is touched. -/
def typeFilter (sel : List String) (txns : List Txn) : List Txn :=
  txns.filter (fun t => decide (t.type ∈ sel))

/-- Lines 126-131 of `app.py`: when both a start and an end date are
supplied, keep the rows whose `Timestamp` satisfies
`start <= ts && ts <= end`.  A `NaT` timestamp compares as false in
pandas, so such rows are dropped.  With no complete range the step is a
pass-through. -/
def inDateRange (s e : Int) : Option Int → Bool
  | none => false
  | some ts => decide (s ≤ ts) && decide (ts ≤ e)

/-- Lines 126-131 of `app.py` continued: the filter itself, a
pass-through when no complete range is supplied. -/
def dateFilter (range : Option (Int × Int)) (txns : List Txn) : List Txn :=
  match range with
  | none => txns
  | some (s, e) => txns.filter (fun t => inDateRange s e t.timestamp)

/-- One step of the pipeline viewed as a transformer of the
(transactions, balances) pair: the user filter. -/
def userStep (sel : List String) (st : List Txn × List Balance) :
    List Txn × List Balance :=
  userFilter sel st.1 st.2

/-- The type filter as a pair transformer; it leaves the balances
component untouched (line 124 only rebinds `df_transactions`). -/
def typeStep (sel : List String) (st : List Txn × List Balance) :
    List Txn × List Balance :=
  (typeFilter sel st.1, st.2)

/-- The date filter as a pair transformer; it leaves the balances
component untouched (lines 126-131 only rebind `df_transactions`). -/
def dateStep (range : Option (Int × Int)) (st : List Txn × List Balance) :
    List Txn × List Balance :=
  (dateFilter range st.1, st.2)

/-- Lines 120-131 of `app.py`: the full filter pipeline in source
order — user filter, then type filter, then date filter. -/
def applyFilters (c : Criteria) (txns : List Txn) (bals : List Balance) :
    List Txn × List Balance :=
  dateStep c.dateRange (typeStep c.selectedTypes (userStep c.selectedUsers (txns, bals)))

-- Concrete demo data, taken from the worked example in the spec
-- (users A and B, one credit of 100 and one debit of -50, balances
-- 200 and 0).

/-- Demo transactions used by the witness theorems. -/
def demoTxns : List Txn :=
  [⟨some 1, "A", .str "111", "credit", 100⟩,
   ⟨some 2, "B", .str "222", "debit", -50⟩]

/-- Demo balances used by the witness theorems. -/
def demoBals : List Balance :=
  [⟨"A", .str "111", 200, some 5⟩,
   ⟨"B", .str "222", 0, some 6⟩]

example : (userFilter ["A"] demoTxns demoBals).1 = [⟨some 1, "A", .str "111", "credit", 100⟩] := by decide
example : userFilter [] demoTxns demoBals = (demoTxns, demoBals) := by decide
example : typeFilter [] demoTxns = [] := by decide
example : dateFilter (some (1, 1)) demoTxns = [⟨some 1, "A", .str "111", "credit", 100⟩] := by decide

-- ## Schema normalizer (lines 94-102 of `app.py`)

/-- What the `pandas.to_datetime` parser sees in one raw `Timestamp`
cell: an empty/NA cell, a cell it can parse to an instant, or a cell it
cannot parse. -/
inductive Cell where
  | blank
  | date (d : Int)
  | malformed (s : String)
  deriving DecidableEq, Repr

/-- A raw transaction row as fetched from the sheet, before the
`Timestamp` column is converted. -/
structure RawTxn where
  rawTimestamp : Cell
  userName : String
  phoneNumber : PyVal
  type : String
  amount : ℚ
  deriving DecidableEq, Repr

/-- Line 95 of `app.py`:
`df_transactions["Timestamp"] = pd.to_datetime(df_transactions["Timestamp"])`.
No `errors=` argument is passed, so pandas uses its default
`errors="raise"`: an empty/NA cell becomes `NaT` (here `none`), but an
unparseable cell raises `ValueError`, modelled as `Except.error`. -/
def normalizeTransactions (rows : List RawTxn) : Except String (List Txn) :=
  rows.mapM fun r =>
    match r.rawTimestamp with
    | .blank => .ok ⟨none, r.userName, r.phoneNumber, r.type, r.amount⟩
    | .date d => .ok ⟨some d, r.userName, r.phoneNumber, r.type, r.amount⟩
    | .malformed s => .error ("ValueError: could not parse " ++ s)

/-- Lines 98-102 of `app.py`: the "Last Updated" column, by contrast,
is converted with `errors="coerce"`, which maps every unparseable or
missing cell to `NaT` and never raises. -/
def coerceLastUpdated (cells : List Cell) : List (Option Int) :=
  cells.map fun c =>
    match c with
    | .blank => none
    | .date d => some d
    | .malformed _ => none

-- ## Metrics aggregator (lines 141-175 of `app.py`)

/-- Line 141: `total_users = len(df_balances)`. -/
def total_users (bals : List Balance) : Nat := bals.length

/-- Line 142: `total_balance = df_balances["Current Balance"].sum()`. -/
def total_balance (bals : List Balance) : ℚ :=
  (bals.map (·.currentBalance)).sum

/-- Line 143: `total_transactions = len(df_transactions)`. -/
def total_transactions (txns : List Txn) : Nat := txns.length

/-- `pandas.Series.mean`: the arithmetic mean of the column, or `NaN`
(here `none`) when the series is empty.  It is a total operation — an
empty series yields the missing-data marker, not an exception. -/
def seriesMean (xs : List ℚ) : Option ℚ :=
  if xs = [] then none else some (xs.sum / xs.length)

/-- Line 144: `avg_balance = df_balances["Current Balance"].mean()`. -/
def avg_balance (bals : List Balance) : Option ℚ :=
  seriesMean (bals.map (·.currentBalance))

/-- Line 153: `len(df_balances[df_balances['Current Balance'] > 0])`,
the count of balance rows with a positive current balance. -/
def active_users (bals : List Balance) : Nat :=
  (bals.filter (fun b => decide (0 < b.currentBalance))).length

/-- Line 170: `positive_transactions = len(df_transactions[df_transactions["amount"] > 0])`. -/
def positive_transactions (txns : List Txn) : Nat :=
  (txns.filter (fun t => decide (0 < t.amount))).length

/-- Line 174 of `app.py`:
`f"{positive_transactions/total_transactions*100:.1f}%"`.
Python integer division by zero raises `ZeroDivisionError`; there is no
guard in the source, so the embedding returns `Except.error` exactly
when `total_transactions` is zero, and the percentage otherwise. -/
def positive_pct (txns : List Txn) : Except String ℚ :=
  if total_transactions txns = 0 then .error "ZeroDivisionError"
  else .ok ((positive_transactions txns : ℚ) / (total_transactions txns : ℚ) * 100)

example : positive_pct demoTxns = .ok 50 := by
  norm_num [positive_pct, positive_transactions, total_transactions, demoTxns]
example : positive_pct [] = .error "ZeroDivisionError" := rfl
example : avg_balance demoBals = some 100 := by
  simp only [avg_balance, seriesMean, demoBals, List.map]
  rw [if_neg (by simp)]
  norm_num
example : avg_balance [] = none := rfl

-- ## Per-user combined view (lines 361-368 of `app.py`)

/-- One row of the `user_performance` frame: the per-user transaction
aggregates together with the matched balance row.  `balanceRow = none`
models the `NaN` balance columns a left-joined user without a balance
row receives. -/
structure PerfRow where
  userName : String
  total_amount : ℚ
  transaction_count : Nat
  first_type : Option String
  balanceRow : Option Balance
  deriving DecidableEq, Repr

/-- Lines 361-365 of `app.py`:
`df_transactions.groupby("userName").agg({"amount": ["sum", "count"], "type": "first"})`.
Each distinct `userName` of the frame yields one row holding the sum of
`amount`, the row count, and the first `type` in row order for that
user.  Group keys are the distinct user names (pandas sorts them; no
claim here depends on row order, so the embedding lists them via
`dedup`). -/
def user_summary (txns : List Txn) : List (String × ℚ × Nat × Option String) :=
  ((txns.map (·.userName)).dedup).map fun u =>
    let g := txns.filter (fun t => decide (t.userName = u))
    (u, (g.map (·.amount)).sum, g.length, g.head?.map (·.type))

/-- The rows `pd.merge(..., how="left")` produces for one left row with
key `u`: one row per matching balance row, or a single row with `NaN`
balance columns when no balance row matches. -/
def mergeRows (u : String) (s : ℚ) (c : Nat) (ft : Option String)
    (bals : List Balance) : List PerfRow :=
  if bals.filter (fun b => decide (b.username = u)) = [] then [⟨u, s, c, ft, none⟩]
  else (bals.filter (fun b => decide (b.username = u))).map fun b => ⟨u, s, c, ft, some b⟩

/-- Line 368 of `app.py`:
`pd.merge(user_summary, df_balances, left_on="userName", right_on="Username", how="left")`. -/
def user_performance (txns : List Txn) (bals : List Balance) : List PerfRow :=
  (user_summary txns).flatMap fun r => mergeRows r.1 r.2.1 r.2.2.1 r.2.2.2 bals

example : (user_performance demoTxns demoBals).map (·.userName) = ["A", "B"] := by decide
example : user_performance demoTxns [] =
    [⟨"A", 100, 1, some "credit", none⟩, ⟨"B", -50, 1, some "debit", none⟩] := by
  simp [user_performance, user_summary, mergeRows, demoTxns, List.dedup]

-- ## Mutation model (lines 90-175 of `app.py`)

/-- The per-render-cycle state: the frames as loaded from the source
(`srcTxns`, `srcBals`) and what the script's `df_transactions` /
`df_balances` variables are bound to.  `txnsCopy = none` means
`df_transactions` still points at the loaded frame (an alias — the
state right after lines 90-91); `some v` means a boolean-mask indexing
step has rebound it to a fresh frame holding `v`.  Likewise for
`balsCopy`. -/
structure Dashboard where
  srcTxns : List Txn
  srcBals : List Balance
  txnsCopy : Option (List Txn)
  balsCopy : Option (List Balance)
  deriving DecidableEq, Repr

/-- The rows the `df_transactions` variable currently sees. -/
def viewTxns (st : Dashboard) : List Txn := st.txnsCopy.getD st.srcTxns

/-- The rows the `df_balances` variable currently sees. -/
def viewBals (st : Dashboard) : List Balance := st.balsCopy.getD st.srcBals

/-- `df_transactions = df_transactions[mask]`: boolean-mask indexing
returns a new frame and the assignment rebinds the variable to it; the
loaded frame is not written. -/
def rebindTxns (f : List Txn → List Txn) (st : Dashboard) : Dashboard :=
  { st with txnsCopy := some (f (viewTxns st)) }

/-- `df_balances = df_balances[mask]`: as `rebindTxns`, for the
balances variable. -/
def rebindBals (f : List Balance → List Balance) (st : Dashboard) : Dashboard :=
  { st with balsCopy := some (f (viewBals st)) }

/-- `df_transactions[col] = ...`: an in-place column assignment writes
the frame the variable is bound to — through an alias this writes the
loaded source frame itself. -/
def writeTxns (f : List Txn → List Txn) (st : Dashboard) : Dashboard :=
  match st.txnsCopy with
  | none => { st with srcTxns := f st.srcTxns }
  | some v => { st with txnsCopy := some (f v) }

/-- `df_balances[col] = ...`: as `writeTxns`, for the balances
variable. -/
def writeBals (f : List Balance → List Balance) (st : Dashboard) : Dashboard :=
  match st.balsCopy with
  | none => { st with srcBals := f st.srcBals }
  | some v => { st with balsCopy := some (f v) }

/-- Lines 120-131 of `app.py` as a state transformer: with a non-empty
user selection lines 121-122 rebind both variables to filtered copies;
line 124 unconditionally rebinds `df_transactions`; with a complete
date range lines 128-131 rebind it again. -/
def runFilters (c : Criteria) (st : Dashboard) : Dashboard :=
  let st1 :=
    if c.selectedUsers = [] then st
    else rebindBals (fun bs => bs.filter fun b => decide (b.username ∈ c.selectedUsers))
           (rebindTxns (fun ts => ts.filter fun t => decide (t.userName ∈ c.selectedUsers)) st)
  let st2 := rebindTxns (typeFilter c.selectedTypes) st1
  match c.dateRange with
  | none => st2
  | some (s, e) => rebindTxns (dateFilter (some (s, e))) st2

/-- Lines 134-135 of `app.py`:
`df_transactions["phoneNumber"] = df_transactions["phoneNumber"].astype(str)` and
likewise for `df_balances["Phone"]` — in-place column assignments on
whatever frame each variable is bound to at that point. -/
def fixTypes (st : Dashboard) : Dashboard :=
  writeBals (List.map fun b => { b with phone := pyStr b.phone })
    (writeTxns (List.map fun t => { t with phoneNumber := pyStr t.phoneNumber }) st)

/-- The scalar metrics of lines 141-175 (the percentage is kept as
`Except` since the source divides unguarded). -/
structure Metrics where
  totalUsers : Nat
  totalBalance : ℚ
  totalTransactions : Nat
  avgBalance : Option ℚ
  activeUsers : Nat
  positiveTransactions : Nat
  positivePct : Except String ℚ
  deriving Repr

/-- Lines 141-175 of `app.py`: the metrics are pure reads of the
frames the variables are bound to; the state is returned unchanged. -/
def computeMetrics (st : Dashboard) : Dashboard × Metrics :=
  (st,
   ⟨total_users (viewBals st), total_balance (viewBals st),
    total_transactions (viewTxns st), avg_balance (viewBals st),
    active_users (viewBals st), positive_transactions (viewTxns st),
    positive_pct (viewTxns st)⟩)

/-- The full in-scope pipeline of `app.py`: load the two tables (both
variables initially alias the loaded frames), apply the filters, fix
the phone-column types, compute the metrics. -/
def runDashboard (c : Criteria) (txns : List Txn) (bals : List Balance) :
    Dashboard × Metrics :=
  computeMetrics (fixTypes (runFilters c ⟨txns, bals, none, none⟩))

-- ## Helper lemmas

/-- Two `List.filter`s commute. -/
theorem filter_swap {α : Type} (p q : α → Bool) (l : List α) :
    (l.filter p).filter q = (l.filter q).filter p := by
  rw [List.filter_filter, List.filter_filter]
  exact List.filter_congr fun a _ => by rw [Bool.and_comm]

/-- `inDateRange` holds exactly on a present timestamp inside the
closed interval. -/
theorem inDateRange_eq_true (s e : Int) (ts : Option Int) :
    inDateRange s e ts = true ↔ ∃ t, ts = some t ∧ s ≤ t ∧ t ≤ e := by
  cases ts with
  | none => simp [inDateRange]
  | some t => simp [inDateRange, and_assoc]

/-- In a list whose `f`-image has no duplicates, at most one element
maps to any given value. -/
theorem length_filter_le_one {α : Type} (f : α → String) (u : String) (l : List α)
    (h : (l.map f).Nodup) :
    (l.filter (fun b => decide (f b = u))).length ≤ 1 := by
  induction l with
  | nil => simp
  | cons b l ih =>
    simp only [List.map_cons, List.nodup_cons] at h
    by_cases hb : f b = u
    · have hempty : l.filter (fun x => decide (f x = u)) = [] := by
        rw [List.filter_eq_nil_iff]
        intro x hx
        simp only [decide_eq_true_eq]
        intro hxu
        exact h.1 (hb ▸ hxu ▸ List.mem_map_of_mem f hx)
      simp [List.filter_cons, hb, hempty]
    · simpa [List.filter_cons, hb] using ih h.2

-- ## The claims

/-- C1: the claim says that when the filtered transactions are empty
the reported positive-transaction percentage is 0 and no error is
raised.  The source (line 174) computes
`positive_transactions/total_transactions*100` with no guard, so with
`total_transactions = 0` Python raises `ZeroDivisionError` instead of
reporting 0%. -/
theorem positive_pct_divides_by_zero :
    total_transactions ([] : List Txn) = 0 ∧
    positive_pct [] = .error "ZeroDivisionError" :=
  ⟨rfl, rfl⟩

/-- C2: when the filtered balances table has zero rows, `avg_balance`
(line 144, `pandas.Series.mean`) reports the missing-data marker `NaN`
(`none` in the embedding) — a defined sentinel — and never raises or
divides by zero. -/
theorem avg_balance_empty_sentinel (bals : List Balance)
    (h : total_users bals = 0) : avg_balance bals = none := by
  have hb : bals = [] := List.length_eq_zero.mp h
  subst hb
  rfl

/-- Witness for C2 at the empty balances table. -/
theorem avg_balance_empty_sentinel_witness : avg_balance [] = none :=
  avg_balance_empty_sentinel [] rfl

/-- C3: the claim says normalizing the `Timestamp` column maps every
malformed or missing per-row value to a null timestamp and never
fails.  Line 95 calls `pd.to_datetime` with the default
`errors="raise"`: a missing cell does become null, but a malformed cell
raises `ValueError` — the conversion does fail on a per-row value. -/
theorem normalize_timestamp_raises_on_malformed :
    normalizeTransactions [⟨Cell.blank, "A", .str "111", "credit", 10⟩] =
      .ok [⟨none, "A", .str "111", "credit", 10⟩] ∧
    normalizeTransactions [⟨Cell.malformed "not-a-date", "A", .str "111", "credit", 10⟩] =
      .error "ValueError: could not parse not-a-date" :=
  ⟨rfl, rfl⟩

/-- C4: when `selectedUsers` is non-empty, every retained transaction's
`userName` and every retained balance's `username` is in the selection;
when it is empty, the user filter is the identity on both tables
(lines 120-122). -/
theorem userFilter_spec (sel : List String) (txns : List Txn) (bals : List Balance) :
    (sel ≠ [] →
      (∀ t ∈ (userFilter sel txns bals).1, t.userName ∈ sel) ∧
      (∀ b ∈ (userFilter sel txns bals).2, b.username ∈ sel)) ∧
    (sel = [] → userFilter sel txns bals = (txns, bals)) := by
  constructor
  · intro hne
    simp only [userFilter, if_neg hne]
    constructor
    · intro t ht
      simpa using (List.mem_filter.mp ht).2
    · intro b hb
      simpa using (List.mem_filter.mp hb).2
  · intro he
    simp [userFilter, he]

/-- Witness for C4: the empty selection is a pass-through, and with a
non-empty selection a retained row's user is in the selection. -/
theorem userFilter_spec_witness :
    userFilter [] demoTxns demoBals = (demoTxns, demoBals) ∧ "A" ∈ ["A"] :=
  ⟨(userFilter_spec [] demoTxns demoBals).2 rfl,
   ((userFilter_spec ["A"] demoTxns demoBals).1 (by decide)).1
     ⟨some 1, "A", .str "111", "credit", 100⟩ (by decide)⟩

/-- C5: a transaction row survives the type filter (line 124) iff its
`type` is in `selectedTypes`; the filter is unconditional, so the empty
selection yields the empty table. -/
theorem typeFilter_spec (sel : List String) (txns : List Txn) :
    (∀ t, t ∈ typeFilter sel txns ↔ t ∈ txns ∧ t.type ∈ sel) ∧
    typeFilter [] txns = [] := by
  constructor
  · intro t
    simp [typeFilter, List.mem_filter]
  · simp [typeFilter]

/-- Witness for C5: the empty selection empties the demo table, and a
credit row survives the selection `["credit"]`. -/
theorem typeFilter_spec_witness :
    typeFilter [] demoTxns = [] ∧
    (⟨some 1, "A", .str "111", "credit", 100⟩ : Txn) ∈ typeFilter ["credit"] demoTxns :=
  ⟨(typeFilter_spec [] demoTxns).2,
   ((typeFilter_spec ["credit"] demoTxns).1 _).mpr ⟨by decide, by decide⟩⟩

/-- C6: with a complete range the date filter (lines 126-131) retains a
row iff its normalized timestamp is present and lies in the closed
interval `[s, e]`; null-timestamp rows are always dropped; with no
complete range the step is the identity. -/
theorem dateFilter_spec (s e : Int) (txns : List Txn) :
    (∀ t, t ∈ dateFilter (some (s, e)) txns ↔
      t ∈ txns ∧ ∃ ts, t.timestamp = some ts ∧ s ≤ ts ∧ ts ≤ e) ∧
    (∀ t ∈ dateFilter (some (s, e)) txns, t.timestamp ≠ none) ∧
    dateFilter none txns = txns := by
  refine ⟨fun t => ?_, fun t ht => ?_, rfl⟩
  · rw [dateFilter, List.mem_filter, inDateRange_eq_true]
  · rw [dateFilter, List.mem_filter] at ht
    obtain ⟨ts, hts, -⟩ := (inDateRange_eq_true s e t.timestamp).mp ht.2
    simp [hts]

/-- Witness for C6: with range `[1, 1]` only the first demo row (its
timestamp is 1) survives. -/
theorem dateFilter_spec_witness :
    (⟨some 1, "A", .str "111", "credit", 100⟩ : Txn) ∈ dateFilter (some (1, 1)) demoTxns ∧
    dateFilter none demoTxns = demoTxns :=
  ⟨((dateFilter_spec 1 1 demoTxns).1 _).mpr
     ⟨by decide, 1, rfl, le_refl 1, le_refl 1⟩,
   (dateFilter_spec 1 1 demoTxns).2.2⟩

/-- C7: the user and type filter steps commute, the date filter step
moves past them, and the pipeline in source order (user, type, date)
agrees with the fully reversed order (type, date, user). -/
theorem filters_commute (c : Criteria) (txns : List Txn) (bals : List Balance) :
    typeStep c.selectedTypes (userStep c.selectedUsers (txns, bals)) =
      userStep c.selectedUsers (typeStep c.selectedTypes (txns, bals)) ∧
    dateStep c.dateRange (typeStep c.selectedTypes (userStep c.selectedUsers (txns, bals))) =
      typeStep c.selectedTypes (userStep c.selectedUsers (dateStep c.dateRange (txns, bals))) ∧
    applyFilters c txns bals =
      userStep c.selectedUsers (dateStep c.dateRange (typeStep c.selectedTypes (txns, bals))) := by
  obtain ⟨su, sty, dr⟩ := c
  by_cases hs : su = [] <;> rcases dr with _ | ⟨s, e⟩ <;>
    simp [applyFilters, userStep, typeStep, dateStep, userFilter, typeFilter, dateFilter,
      hs, Prod.ext_iff] <;>
    (repeat' apply And.intro) <;>
    (refine List.filter_congr fun a _ => ?_
     simp [Bool.and_comm, Bool.and_left_comm, Bool.and_assoc])

/-- C8: the claim says filtering and aggregation never mutate the
source tables.  With an empty user selection lines 120-122 are skipped,
so at line 135 `df_balances` still aliases the loaded frame and the
`astype(str)` column assignment writes it in place, turning a numeric
phone cell into its string rendering: the loaded balances table is no
longer equal to its pre-pipeline state.  (`df_transactions` is always
rebound by line 124 before line 134, so its source is preserved.) -/
theorem runDashboard_mutates_aliased_balances :
    (runDashboard ⟨[], ["credit"], none⟩ demoTxns [⟨"A", .num 111, 200, some 5⟩]).1.srcBals
      = [⟨"A", .str "111", 200, some 5⟩] ∧
    (runDashboard ⟨[], ["credit"], none⟩ demoTxns [⟨"A", .num 111, 200, some 5⟩]).1.srcBals
      ≠ [⟨"A", .num 111, 200, some 5⟩] ∧
    (runDashboard ⟨[], ["credit"], none⟩ demoTxns [⟨"A", .num 111, 200, some 5⟩]).1.srcTxns
      = demoTxns :=
  ⟨rfl, by decide, rfl⟩

-- Lemmas for the left-join claim.

/-- A `mergeRows` call with no matching balance row yields the single
row with null balance fields. -/
theorem mergeRows_unmatched (u : String) (s : ℚ) (c : Nat) (ft : Option String)
    (bals : List Balance) (h : ∀ b ∈ bals, b.username ≠ u) :
    mergeRows u s c ft bals = [⟨u, s, c, ft, none⟩] := by
  have hf : bals.filter (fun b => decide (b.username = u)) = [] := by
    rw [List.filter_eq_nil_iff]
    intro b hb
    simpa using h b hb
  rw [mergeRows, if_pos hf]

/-- Every row `mergeRows` produces carries the left key. -/
theorem mergeRows_userName (u : String) (s : ℚ) (c : Nat) (ft : Option String)
    (bals : List Balance) :
    ∀ r ∈ mergeRows u s c ft bals, r.userName = u := by
  intro r hr
  rw [mergeRows] at hr
  split at hr
  · rw [List.mem_singleton] at hr
    rw [hr]
  · obtain ⟨b, -, rfl⟩ := List.mem_map.mp hr
    rfl

/-- With duplicate-free balance usernames, `mergeRows` produces exactly
one row, and its key is the left key. -/
theorem mergeRows_map_userName (u : String) (s : ℚ) (c : Nat) (ft : Option String)
    (bals : List Balance) (hnd : (bals.map (·.username)).Nodup) :
    (mergeRows u s c ft bals).map (·.userName) = [u] := by
  rw [mergeRows]
  by_cases hms : bals.filter (fun b => decide (b.username = u)) = []
  · rw [if_pos hms]
    rfl
  · rw [if_neg hms]
    have hle := length_filter_le_one (·.username) u bals hnd
    have hpos : 0 < (bals.filter (fun b => decide (b.username = u))).length :=
      List.length_pos.mpr hms
    obtain ⟨b, hb⟩ := List.length_eq_one.mp (le_antisymm hle hpos)
    rw [hb]
    rfl

/-- Mapping the key over a flatMap whose pieces each contribute their
key exactly once recovers the key list. -/
theorem flatMap_keys {α : Type} (key : α → String) (g : α → List PerfRow)
    (h : ∀ a, (g a).map (·.userName) = [key a]) (l : List α) :
    (l.flatMap g).map (·.userName) = l.map key := by
  induction l with
  | nil => rfl
  | cons a l ih => simp [List.flatMap_cons, h a, ih]

/-- C9: with duplicate-free balance usernames (the spec's stated data
model assumption), `user_performance` (lines 361-368) is a left join:
its keys are duplicate-free, a user appears among them iff it appears
in the filtered transactions, and a user with no matching balance row
keeps null balance fields. -/
theorem user_performance_left_join (txns : List Txn) (bals : List Balance)
    (hnd : (bals.map (·.username)).Nodup) :
    ((user_performance txns bals).map (·.userName)).Nodup ∧
    (∀ u, u ∈ (user_performance txns bals).map (·.userName) ↔
      u ∈ txns.map (·.userName)) ∧
    (∀ r ∈ user_performance txns bals,
      (∀ b ∈ bals, b.username ≠ r.userName) → r.balanceRow = none) := by
  have hkeys : (user_performance txns bals).map (·.userName) =
      (txns.map (·.userName)).dedup := by
    have happ := flatMap_keys (fun r : String × ℚ × Nat × Option String => r.1)
      (fun r => mergeRows r.1 r.2.1 r.2.2.1 r.2.2.2 bals)
      (fun r => mergeRows_map_userName r.1 r.2.1 r.2.2.1 r.2.2.2 bals hnd)
      (user_summary txns)
    rw [user_performance, happ]
    simp only [user_summary, List.map_map]
    exact List.map_id' _
  refine ⟨hkeys ▸ List.nodup_dedup _, fun u => ?_, fun r hr h => ?_⟩
  · rw [hkeys, List.mem_dedup]
  · rw [user_performance] at hr
    obtain ⟨x, -, hrx⟩ := List.mem_flatMap.mp hr
    have hu : r.userName = x.1 := mergeRows_userName _ _ _ _ bals r hrx
    have h' : ∀ b ∈ bals, b.username ≠ x.1 := fun b hb => hu ▸ h b hb
    rw [mergeRows_unmatched _ _ _ _ _ h', List.mem_singleton] at hrx
    rw [hrx]

/-- Witness for C9 on the demo data (its balance usernames are
duplicate-free). -/
theorem user_performance_left_join_witness :
    ((user_performance demoTxns demoBals).map (·.userName)).Nodup :=
  (user_performance_left_join demoTxns demoBals (by decide)).1

/-- C10: the balances output of the filter pipeline is exactly the
user-filter output — the type and date steps never touch the balances
table, so the filtered balances depend only on the user selection. -/
theorem balances_frame_condition (c c' : Criteria) (txns : List Txn) (bals : List Balance) :
    (applyFilters c txns bals).2 = (userFilter c.selectedUsers txns bals).2 ∧
    (c.selectedUsers = c'.selectedUsers →
      (applyFilters c txns bals).2 = (applyFilters c' txns bals).2) := by
  constructor
  · rfl
  · intro h
    show (userFilter c.selectedUsers txns bals).2 = (userFilter c'.selectedUsers txns bals).2
    rw [h]

/-- Witness for C10: two criteria sharing only the user selection
yield the same filtered balances. -/
theorem balances_frame_condition_witness :
    (applyFilters ⟨["A"], ["credit"], none⟩ demoTxns demoBals).2 =
      (applyFilters ⟨["A"], [], some (0, 9)⟩ demoTxns demoBals).2 :=
  (balances_frame_condition ⟨["A"], ["credit"], none⟩ ⟨["A"], [], some (0, 9)⟩
    demoTxns demoBals).2 rfl

